import Mathlib

/-!
Shallow embedding of the employee-management HTTP service
(src/employeeManagement/app.py) and proofs about its request handlers.

The service stores employee rows in a MySQL table; we model the table as a
list of rows plus the AUTO_INCREMENT counter.  Each Flask handler becomes a
pure function from its request data, the pool state, an optional injected
storage fault, and the table state, to a record holding the HTTP response,
the new table state, and bookkeeping about connection acquisition/release
and the SQL statements executed (used to state resource-release and
single-statement properties).
-/

namespace EmployeeApp

/-- Calendar date, the value a MySQL DATE column yields (Python datetime.date). -/
structure Date where
  year : Nat
  month : Nat
  day : Nat
deriving DecidableEq, Repr

/-- Timestamp, the value a MySQL TIMESTAMP column yields (Python datetime.datetime). -/
structure DateTime where
  date : Date
  hour : Nat
  minute : Nat
  second : Nat
deriving DecidableEq, Repr

/-- Zero-pad a natural number to two digits, as Python isoformat does. -/
def pad2 (n : Nat) : String :=
  if n < 10 then "0" ++ toString n else toString n

/-- Zero-pad a year to four digits, as Python isoformat does. -/
def pad4 (n : Nat) : String :=
  if n < 10 then "000" ++ toString n
  else if n < 100 then "00" ++ toString n
  else if n < 1000 then "0" ++ toString n
  else toString n

/-- Python date.isoformat(): YYYY-MM-DD. -/
def Date.isoformat (d : Date) : String :=
  pad4 d.year ++ "-" ++ pad2 d.month ++ "-" ++ pad2 d.day

/-- Python datetime.isoformat() with zero microseconds: YYYY-MM-DDTHH:MM:SS. -/
def DateTime.isoformat (t : DateTime) : String :=
  t.date.isoformat ++ "T" ++ pad2 t.hour ++ ":" ++ pad2 t.minute ++ ":" ++ pad2 t.second

/-- A value as it appears in a fetched row / in the dictionary built by the
handlers: NULL, a string, an integer (also used for DECIMAL salary), a DATE
value, or a TIMESTAMP value.  Python's datetime.date is NOT an instance of
datetime.datetime, so vDate and vDatetime are distinct constructors. -/
inductive DbValue where
  | vNull : DbValue
  | vStr : String → DbValue
  | vInt : Int → DbValue
  | vDate : Date → DbValue
  | vDatetime : DateTime → DbValue
deriving DecidableEq, Repr

/-- Whether a value is a string (used to state that a value was, or was not,
rendered as a string by the serialization loop). -/
def DbValue.isStr : DbValue → Bool
  | .vStr _ => true
  | _ => false

/-- One employee row of the employees table (schema from init_database). -/
structure Row where
  id : Nat
  first_name : String
  last_name : String
  email : String
  phone : Option String
  department : Option String
  pos : Option String
  salary : Option Int
  hire_date : Option Date
  created_at : DateTime
  updated_at : DateTime
deriving DecidableEq, Repr

/-- The employees table: its rows in insertion order and the next
AUTO_INCREMENT id to issue. -/
structure Db where
  rows : List Row
  nextId : Nat
deriving DecidableEq, Repr

/-- The JSON body of a create request, once request.get_json() has produced a
dictionary. none models an absent (or null) key; Python treats an empty
string as falsy, which the validation loop rejects like an absent key. -/
structure Payload where
  first_name : Option String
  last_name : Option String
  email : Option String
  phone : Option String
  department : Option String
  pos : Option String
  salary : Option Int
  hire_date : Option Date
deriving DecidableEq, Repr

/-- The body of a POST /employees request as the handler's try block sees it.
parseFails: request.get_json() raises (absent or malformed body) inside the
try, landing in the generic except-Exception clause.  nonObject: get_json
returned a non-dict value (for example null or a number) on which the
membership test of the validation loop raises TypeError, landing in the same
clause.  obj: a JSON object. -/
inductive RequestBody where
  | parseFails : RequestBody
  | nonObject : RequestBody
  | obj : Payload → RequestBody
deriving DecidableEq, Repr

/-- An injected mysql.connector.Error raised by cursor.execute, with its
errno, its message, and whether the connection is still connected when the
finally clause runs. -/
structure Fault where
  errno : Nat
  msg : String
  stillConnected : Bool
deriving DecidableEq, Repr

/-- A JSON response body of this service. -/
inductive RespBody where
  | errMsg : String → RespBody
  | created : String → List (String × DbValue) → RespBody
  | single : List (String × DbValue) → RespBody
  | listing : List (List (String × DbValue)) → Nat → RespBody
deriving DecidableEq, Repr

/-- An HTTP response: status code and JSON body. -/
structure Response where
  status : Nat
  body : RespBody
deriving DecidableEq, Repr

/-- One executed SQL statement: its (fixed) text and its bound parameters. -/
structure Stmt where
  sql : String
  params : List DbValue
deriving DecidableEq, Repr

/-- The observable outcome of one handler invocation: the response, the table
afterwards, whether a pooled connection was acquired, whether it was still
connected when the finally clause ran, whether the finally clause closed
(released) it, and the statements executed. -/
structure HandlerRun where
  resp : Response
  db : Db
  acquired : Bool
  connConnected : Bool
  released : Bool
  stmts : List Stmt
deriving DecidableEq, Repr

/-- Python truthiness test of the validation loop on an optional string
field: `field not in data or not data[field]` is true when the field is
absent or empty. -/
def missingOrFalsy : Option String → Bool
  | none => true
  | some s => s = ""

/-- Python single-character membership test: '@' in s holds when some
character of s is '@'. -/
def hasAtSign (s : String) : Bool :=
  s.data.contains '@'

/-- Value of an optional string field, after validation has ruled out none. -/
def strOf : Option String → String
  | none => ""
  | some s => s

/-- Optional string as a row/parameter value (data.get, absent becomes NULL). -/
def optStrVal : Option String → DbValue
  | none => .vNull
  | some s => .vStr s

/-- Optional integer as a row/parameter value. -/
def optIntVal : Option Int → DbValue
  | none => .vNull
  | some n => .vInt n

/-- Optional date as a row/parameter value. -/
def optDateVal : Option Date → DbValue
  | none => .vNull
  | some d => .vDate d

/-- The validation prologue of add_employee (lines 93-100): the loop over
required_fields in order, then the '@' membership check on the email.
Returns the error response it would send, or none if validation passes. -/
def validatePayload (p : Payload) : Option Response :=
  if missingOrFalsy p.first_name then
    some ⟨400, .errMsg "Missing required field: first_name"⟩
  else if missingOrFalsy p.last_name then
    some ⟨400, .errMsg "Missing required field: last_name"⟩
  else if missingOrFalsy p.email then
    some ⟨400, .errMsg "Missing required field: email"⟩
  else if !hasAtSign (strOf p.email) then
    some ⟨400, .errMsg "Invalid email format"⟩
  else
    none

/-- get_db_connection: raises when the pool was never constructed, otherwise
hands out a pooled connection.  The pool flag is fixed at process start and
nothing ever mutates it: an initial construction failure is permanent. -/
def getDbConnection (pool : Bool) : Except String Unit :=
  if pool then .ok () else .error "Database connection pool not available"

/-- SQL text of the insert statement of add_employee (lines 106-109). -/
def insertSql : String :=
  "INSERT INTO employees (first_name, last_name, email, phone, department, position, salary, hire_date) VALUES (%s, %s, %s, %s, %s, %s, %s, %s)"

/-- SQL text of the select-by-id statement (lines 128 and 167). -/
def selectByIdSql : String :=
  "SELECT * FROM employees WHERE id = %s"

/-- SQL text of the select-all statement of get_all_employees (line 203). -/
def selectAllSql : String :=
  "SELECT * FROM employees ORDER BY id"

/-- The parameter tuple bound to the insert statement (lines 111-120). -/
def insertParams (p : Payload) : List DbValue :=
  [ .vStr (strOf p.first_name), .vStr (strOf p.last_name), .vStr (strOf p.email),
    optStrVal p.phone, optStrVal p.department, optStrVal p.pos,
    optIntVal p.salary, optDateVal p.hire_date ]

/-- Whether some stored row already uses this email (the UNIQUE constraint). -/
def emailExists (db : Db) (em : String) : Bool :=
  db.rows.any fun r => r.email == em

/-- The row the insert statement creates: provided fields verbatim, absent
optional fields NULL, id from AUTO_INCREMENT, both timestamps set to now. -/
def mkRow (i : Nat) (p : Payload) (now : DateTime) : Row :=
  { id := i
    first_name := strOf p.first_name
    last_name := strOf p.last_name
    email := strOf p.email
    phone := p.phone
    department := p.department
    pos := p.pos
    salary := p.salary
    hire_date := p.hire_date
    created_at := now
    updated_at := now }

/-- A fetched row as the tuple-to-dict zip produces it (lines 131-133):
column names in schema order become keys. -/
def rawRowDict (r : Row) : List (String × DbValue) :=
  [ ("id", .vInt r.id)
  , ("first_name", .vStr r.first_name)
  , ("last_name", .vStr r.last_name)
  , ("email", .vStr r.email)
  , ("phone", optStrVal r.phone)
  , ("department", optStrVal r.department)
  , ("position", optStrVal r.pos)
  , ("salary", optIntVal r.salary)
  , ("hire_date", optDateVal r.hire_date)
  , ("created_at", .vDatetime r.created_at)
  , ("updated_at", .vDatetime r.updated_at) ]

/-- The serialization loop (lines 136-138): isinstance(value, datetime) is
true only for datetime.datetime values, which become their isoformat string;
every other value, a datetime.date in particular, is left untouched. -/
def convertValue : DbValue → DbValue
  | .vDatetime t => .vStr t.isoformat
  | v => v

/-- The employee dictionary a handler serializes: the zipped row with the
conversion loop applied to each value. -/
def rowToDict (r : Row) : List (String × DbValue) :=
  (rawRowDict r).map fun kv => (kv.1, convertValue kv.2)

/-- Lookup of a key in an employee dictionary. -/
def dictGet (d : List (String × DbValue)) (k : String) : Option DbValue :=
  (d.find? fun kv => kv.1 == k).map fun kv => kv.2

/-- The table state the committed insert produces: the new row appended with
the AUTO_INCREMENT id, and the counter bumped. -/
def insertRow (p : Payload) (now : DateTime) (db : Db) : Db :=
  ⟨db.rows ++ [mkRow db.nextId p now], db.nextId + 1⟩

/-- The success path of add_employee after validation and the uniqueness
check (lines 122-144): commit the insert, then re-read the inserted row by
cursor.lastrowid and answer 201 with its dictionary; were the re-read to
find nothing, dict(zip(columns, None)) would raise and land in the generic
except clause (500). -/
def insertAndReread (p : Payload) (now : DateTime) (db : Db) : HandlerRun :=
  match (insertRow p now db).rows.find? (fun r => r.id == db.nextId) with
  | none =>
      ⟨⟨500, .errMsg "Internal server error"⟩, insertRow p now db, true, true, true,
        [⟨insertSql, insertParams p⟩, ⟨selectByIdSql, [.vInt db.nextId]⟩]⟩
  | some r =>
      ⟨⟨201, .created "Employee added successfully" (rowToDict r)⟩,
        insertRow p now db, true, true, true,
        [⟨insertSql, insertParams p⟩, ⟨selectByIdSql, [.vInt db.nextId]⟩]⟩

/-- The insert statement and its error handling (lines 122-150): an injected
storage fault — or the UNIQUE-constraint violation the database raises for a
duplicate email, errno 1062 — lands in the except mysql-Error clause, which
answers 409 for errno 1062 and 500 otherwise; without either, the insert
commits and the handler re-reads the row. -/
def runInsert (p : Payload) (fault : Option Fault) (now : DateTime)
    (db : Db) : HandlerRun :=
  match fault with
  | some f =>
    if f.errno = 1062 then
      ⟨⟨409, .errMsg "Email already exists"⟩, db, true,
        f.stillConnected, f.stillConnected, [⟨insertSql, insertParams p⟩]⟩
    else
      ⟨⟨500, .errMsg "Database error occurred"⟩, db, true,
        f.stillConnected, f.stillConnected, [⟨insertSql, insertParams p⟩]⟩
  | none =>
    if emailExists db (strOf p.email) then
      ⟨⟨409, .errMsg "Email already exists"⟩, db, true, true, true,
        [⟨insertSql, insertParams p⟩]⟩
    else
      insertAndReread p now db

/-- add_employee after its validation prologue passed (lines 102-157):
acquire a connection — the raise on an unavailable pool is caught by the
generic except clause — then run the insert. -/
def afterValidation (pool : Bool) (p : Payload) (fault : Option Fault)
    (now : DateTime) (db : Db) : HandlerRun :=
  match getDbConnection pool with
  | .error _ =>
      ⟨⟨500, .errMsg "Internal server error"⟩, db, false, true, false, []⟩
  | .ok _ => runInsert p fault now db

/-- POST /employees (add_employee, lines 86-157).  Arguments: pool state,
request body, an optional fault raised by the first cursor.execute, the
current timestamp, the table state. -/
def addEmployee (pool : Bool) (body : RequestBody) (fault : Option Fault)
    (now : DateTime) (db : Db) : HandlerRun :=
  match body with
  | .parseFails =>
      ⟨⟨500, .errMsg "Internal server error"⟩, db, false, true, false, []⟩
  | .nonObject =>
      ⟨⟨500, .errMsg "Internal server error"⟩, db, false, true, false, []⟩
  | .obj p =>
    match validatePayload p with
    | some resp => ⟨resp, db, false, true, false, []⟩
    | none => afterValidation pool p fault now db

/-- GET /employees/id (get_employee, lines 159-194). -/
def getEmployee (pool : Bool) (eid : Nat) (fault : Option Fault)
    (db : Db) : HandlerRun :=
  match getDbConnection pool with
  | .error _ =>
      ⟨⟨500, .errMsg "Internal server error"⟩, db, false, true, false, []⟩
  | .ok _ =>
    match fault with
    | some f =>
        ⟨⟨500, .errMsg "Database error occurred"⟩, db, true,
          f.stillConnected, f.stillConnected, [⟨selectByIdSql, [.vInt eid]⟩]⟩
    | none =>
      match db.rows.find? fun r => r.id == eid with
      | none =>
          ⟨⟨404, .errMsg "Employee not found"⟩, db, true, true, true,
            [⟨selectByIdSql, [.vInt eid]⟩]⟩
      | some r =>
          ⟨⟨200, .single (rowToDict r)⟩, db, true, true, true,
            [⟨selectByIdSql, [.vInt eid]⟩]⟩

/-- Relation ordering rows by id, as ORDER BY id does. -/
def rowLe (a b : Row) : Prop := a.id ≤ b.id

instance : DecidableRel rowLe := fun a b => Nat.decLe a.id b.id

instance : IsTotal Row rowLe := ⟨fun a b => Nat.le_total a.id b.id⟩

instance : IsTrans Row rowLe := ⟨fun _ _ _ h1 h2 => Nat.le_trans h1 h2⟩

/-- The result set of SELECT * FROM employees ORDER BY id. -/
def orderById (rows : List Row) : List Row :=
  List.insertionSort rowLe rows

/-- GET /employees (get_all_employees, lines 196-230). -/
def getAllEmployees (pool : Bool) (fault : Option Fault) (db : Db) : HandlerRun :=
  match getDbConnection pool with
  | .error _ =>
      ⟨⟨500, .errMsg "Internal server error"⟩, db, false, true, false, []⟩
  | .ok _ =>
    match fault with
    | some f =>
        ⟨⟨500, .errMsg "Database error occurred"⟩, db, true,
          f.stillConnected, f.stillConnected, [⟨selectAllSql, []⟩]⟩
    | none =>
      let lst := (orderById db.rows).map rowToDict
      ⟨⟨200, .listing lst lst.length⟩, db, true, true, true, [⟨selectAllSql, []⟩]⟩

/-- The disjunction of the conditions under which the validation prologue
rejects a payload: a required field absent or empty, or an email without
an '@' character. -/
def invalidPayload (p : Payload) : Bool :=
  missingOrFalsy p.first_name || missingOrFalsy p.last_name ||
    missingOrFalsy p.email || !hasAtSign (strOf p.email)

/-- A sample request timestamp. -/
def exNow : DateTime := ⟨⟨2024, 5, 6⟩, 12, 30, 45⟩

/-- The freshly initialized table: no rows, AUTO_INCREMENT at 1. -/
def emptyDb : Db := ⟨[], 1⟩

/-- A valid create payload (the scenario payload of the spec). -/
def annP : Payload :=
  { first_name := some "Ann", last_name := some "Lee", email := some "ann@x.com",
    phone := none, department := none, pos := none, salary := none, hire_date := none }

/-- An invalid create payload: first_name absent. -/
def badP : Payload :=
  { first_name := none, last_name := some "Lee", email := some "ann@x.com",
    phone := none, department := none, pos := none, salary := none, hire_date := none }

/-- The row the create scenario stores for annP. -/
def annRow : Row := mkRow 1 annP exNow

/-- The table after the scenario create succeeded. -/
def annDb : Db := ⟨[annRow], 2⟩

/-- A row whose hire_date is a DATE value. -/
def dateRow : Row := mkRow 1 { annP with hire_date := some ⟨2024, 1, 2⟩ } exNow

/-- A lost-connection storage error: errno 2013, and the connection is no
longer connected when the finally clause runs. -/
def lostFault : Fault := ⟨2013, "Lost connection to MySQL server during query", false⟩

/-- A generic storage error that leaves the connection connected. -/
def otherFault : Fault := ⟨1048, "Column cannot be null", true⟩

/-- Helper: a payload passes the validation prologue exactly when none of the
rejection conditions holds. -/
theorem validatePayload_none_iff (p : Payload) :
    validatePayload p = none ↔ invalidPayload p = false := by
  unfold validatePayload invalidPayload
  by_cases h1 : missingOrFalsy p.first_name = true <;>
    by_cases h2 : missingOrFalsy p.last_name = true <;>
      by_cases h3 : missingOrFalsy p.email = true <;>
        by_cases h4 : hasAtSign (strOf p.email) = true <;>
          simp [h1, h2, h3, h4]

/-- Helper: every response the validation prologue produces has status 400. -/
theorem validatePayload_some_status (p : Payload) (r : Response)
    (h : validatePayload p = some r) : r.status = 400 := by
  unfold validatePayload at h
  split at h
  · cases h; rfl
  · split at h
    · cases h; rfl
    · split at h
      · cases h; rfl
      · split at h
        · cases h; rfl
        · cases h

/-- Helper: add_employee answers a failed validation directly. -/
theorem addEmployee_invalid (pool : Bool) (p : Payload) (fault : Option Fault)
    (now : DateTime) (db : Db) (r : Response) (h : validatePayload p = some r) :
    addEmployee pool (.obj p) fault now db = ⟨r, db, false, true, false, []⟩ := by
  show (match validatePayload p with
    | some resp => (⟨resp, db, false, true, false, []⟩ : HandlerRun)
    | none => afterValidation pool p fault now db) = _
  rw [h]

/-- Helper: add_employee proceeds past a passed validation. -/
theorem addEmployee_valid (pool : Bool) (p : Payload) (fault : Option Fault)
    (now : DateTime) (db : Db) (h : validatePayload p = none) :
    addEmployee pool (.obj p) fault now db
      = afterValidation pool p fault now db := by
  show (match validatePayload p with
    | some resp => (⟨resp, db, false, true, false, []⟩ : HandlerRun)
    | none => afterValidation pool p fault now db) = _
  rw [h]

/-- Helper: with the pool unavailable, acquisition raises and the generic
except clause answers. -/
theorem afterValidation_down (p : Payload) (fault : Option Fault)
    (now : DateTime) (db : Db) :
    afterValidation false p fault now db
      = ⟨⟨500, .errMsg "Internal server error"⟩, db, false, true, false, []⟩ := rfl

/-- Helper: with the pool available, the insert runs. -/
theorem afterValidation_up (p : Payload) (fault : Option Fault)
    (now : DateTime) (db : Db) :
    afterValidation true p fault now db = runInsert p fault now db := rfl

/-- Helper: an injected storage fault is dispatched on its errno. -/
theorem runInsert_fault (p : Payload) (f : Fault) (now : DateTime) (db : Db) :
    runInsert p (some f) now db
      = if f.errno = 1062 then
          ⟨⟨409, .errMsg "Email already exists"⟩, db, true,
            f.stillConnected, f.stillConnected, [⟨insertSql, insertParams p⟩]⟩
        else
          ⟨⟨500, .errMsg "Database error occurred"⟩, db, true,
            f.stillConnected, f.stillConnected, [⟨insertSql, insertParams p⟩]⟩ := rfl

/-- Helper: a duplicate email makes the insert raise errno 1062, answered
409 with the table unchanged. -/
theorem runInsert_dup (p : Payload) (now : DateTime) (db : Db)
    (h : emailExists db (strOf p.email) = true) :
    runInsert p none now db
      = ⟨⟨409, .errMsg "Email already exists"⟩, db, true, true, true,
          [⟨insertSql, insertParams p⟩]⟩ := by
  show (if emailExists db (strOf p.email) then
      (⟨⟨409, .errMsg "Email already exists"⟩, db, true, true, true,
        [⟨insertSql, insertParams p⟩]⟩ : HandlerRun)
    else insertAndReread p now db) = _
  rw [if_pos h]

/-- Helper: a fresh email lets the insert commit and the re-read run. -/
theorem runInsert_fresh (p : Payload) (now : DateTime) (db : Db)
    (h : emailExists db (strOf p.email) = false) :
    runInsert p none now db = insertAndReread p now db := by
  show (if emailExists db (strOf p.email) then
      (⟨⟨409, .errMsg "Email already exists"⟩, db, true, true, true,
        [⟨insertSql, insertParams p⟩]⟩ : HandlerRun)
    else insertAndReread p now db) = _
  rw [if_neg (by simp [h])]

/-- Helper: get_employee with the pool unavailable. -/
theorem getEmployee_down (eid : Nat) (fault : Option Fault) (db : Db) :
    getEmployee false eid fault db
      = ⟨⟨500, .errMsg "Internal server error"⟩, db, false, true, false, []⟩ := rfl

/-- Helper: get_employee without a fault dispatches on the fetched row. -/
theorem getEmployee_eq (eid : Nat) (db : Db) :
    getEmployee true eid none db
      = match db.rows.find? (fun r => r.id == eid) with
        | none =>
            ⟨⟨404, .errMsg "Employee not found"⟩, db, true, true, true,
              [⟨selectByIdSql, [.vInt eid]⟩]⟩
        | some r =>
            ⟨⟨200, .single (rowToDict r)⟩, db, true, true, true,
              [⟨selectByIdSql, [.vInt eid]⟩]⟩ := rfl

/-- Helper: get_all_employees with the pool unavailable. -/
theorem getAllEmployees_down (fault : Option Fault) (db : Db) :
    getAllEmployees false fault db
      = ⟨⟨500, .errMsg "Internal server error"⟩, db, false, true, false, []⟩ := rfl

/-- Helper: find? skips a prefix on which the predicate is false. -/
theorem find?_append_of_forall_false {l1 l2 : List Row} {p : Row → Bool}
    (h : ∀ r ∈ l1, p r = false) : (l1 ++ l2).find? p = l2.find? p := by
  rw [List.find?_append]
  have hn : l1.find? p = none := List.find?_eq_none.mpr (by intro x hx; simp [h x hx])
  rw [hn, Option.none_or]

/-- C10: a create request whose body is absent or malformed (get_json raises
inside the try block) or is not a JSON object (the membership test of the
validation loop raises TypeError) is answered by the generic except-Exception
clause: 500 with the message Internal server error, no row persisted, no
connection acquired, no statement executed. -/
theorem create_unparseable_body_returns_500 (pool : Bool) (fault : Option Fault)
    (now : DateTime) (db : Db) :
    addEmployee pool .parseFails fault now db
      = ⟨⟨500, .errMsg "Internal server error"⟩, db, false, true, false, []⟩ ∧
    addEmployee pool .nonObject fault now db
      = ⟨⟨500, .errMsg "Internal server error"⟩, db, false, true, false, []⟩ :=
  ⟨rfl, rfl⟩

/-- C7: get-all returns 200, its body lists every stored row ordered by
ascending id, its count equals the number of rows returned (and the number of
stored rows), and the table is unchanged. -/
theorem get_all_returns_sorted_rows_with_count (db : Db) :
    (getAllEmployees true none db).resp.status = 200 ∧
    (getAllEmployees true none db).resp.body
      = .listing ((orderById db.rows).map rowToDict)
          ((orderById db.rows).map rowToDict).length ∧
    List.Perm (orderById db.rows) db.rows ∧
    List.Sorted rowLe (orderById db.rows) ∧
    ((orderById db.rows).map rowToDict).length = db.rows.length ∧
    (getAllEmployees true none db).db = db := by
  refine ⟨rfl, rfl, List.perm_insertionSort rowLe db.rows,
    List.sorted_insertionSort rowLe db.rows, ?_, rfl⟩
  simp [orderById, List.length_insertionSort]

/-- Helper: the field-by-field content of the serialized employee dictionary. -/
theorem rowToDict_fields (r : Row) :
    (rowToDict r).map Prod.fst
      = ["id", "first_name", "last_name", "email", "phone", "department",
         "position", "salary", "hire_date", "created_at", "updated_at"] ∧
    dictGet (rowToDict r) "id" = some (.vInt r.id) ∧
    dictGet (rowToDict r) "first_name" = some (.vStr r.first_name) ∧
    dictGet (rowToDict r) "last_name" = some (.vStr r.last_name) ∧
    dictGet (rowToDict r) "email" = some (.vStr r.email) ∧
    dictGet (rowToDict r) "phone" = some (optStrVal r.phone) ∧
    dictGet (rowToDict r) "department" = some (optStrVal r.department) ∧
    dictGet (rowToDict r) "position" = some (optStrVal r.pos) ∧
    dictGet (rowToDict r) "salary" = some (optIntVal r.salary) ∧
    dictGet (rowToDict r) "hire_date" = some (optDateVal r.hire_date) ∧
    dictGet (rowToDict r) "created_at" = some (.vStr r.created_at.isoformat) ∧
    dictGet (rowToDict r) "updated_at" = some (.vStr r.updated_at.isoformat) := by
  obtain ⟨i, fn, ln, em, ph, dep, ps, sal, hd, ca, ua⟩ := r
  refine ⟨rfl, rfl, rfl, rfl, rfl, ?_, ?_, ?_, ?_, ?_, rfl, rfl⟩
  · cases ph <;> rfl
  · cases dep <;> rfl
  · cases ps <;> rfl
  · cases sal <;> rfl
  · cases hd <;> rfl

/-- C6 (amended): the row-to-JSON mapping keys the dictionary by column name;
timestamp-typed created_at and updated_at are rendered as ISO-8601 strings;
date-typed hire_date and every non-datetime value pass through unconverted. -/
theorem row_serialization_shape (r : Row) :
    (rowToDict r).map Prod.fst
      = ["id", "first_name", "last_name", "email", "phone", "department",
         "position", "salary", "hire_date", "created_at", "updated_at"] ∧
    dictGet (rowToDict r) "id" = some (.vInt r.id) ∧
    dictGet (rowToDict r) "first_name" = some (.vStr r.first_name) ∧
    dictGet (rowToDict r) "last_name" = some (.vStr r.last_name) ∧
    dictGet (rowToDict r) "email" = some (.vStr r.email) ∧
    dictGet (rowToDict r) "phone" = some (optStrVal r.phone) ∧
    dictGet (rowToDict r) "department" = some (optStrVal r.department) ∧
    dictGet (rowToDict r) "position" = some (optStrVal r.pos) ∧
    dictGet (rowToDict r) "salary" = some (optIntVal r.salary) ∧
    dictGet (rowToDict r) "hire_date" = some (optDateVal r.hire_date) ∧
    dictGet (rowToDict r) "created_at" = some (.vStr r.created_at.isoformat) ∧
    dictGet (rowToDict r) "updated_at" = some (.vStr r.updated_at.isoformat) :=
  rowToDict_fields r

/-- C6 counterexample: a DATE-valued hire_date survives the serialization
loop as a date value, not as a string: Python's isinstance(value, datetime)
is false for datetime.date, so the loop does not convert it. -/
theorem hire_date_not_rendered_as_string :
    dictGet (rowToDict dateRow) "hire_date" = some (.vDate ⟨2024, 1, 2⟩) ∧
    (dictGet (rowToDict dateRow) "hire_date").map DbValue.isStr = some false :=
  ⟨rfl, rfl⟩

/-- Helper: whenever add_employee acquired a connection, it executed the
insert, alone or followed by the re-read select. -/
theorem addEmployee_acquired_stmts (pool : Bool) (body : RequestBody)
    (fault : Option Fault) (now : DateTime) (db : Db) :
    (addEmployee pool body fault now db).acquired = true →
    (addEmployee pool body fault now db).stmts.map Stmt.sql = [insertSql] ∨
    (addEmployee pool body fault now db).stmts.map Stmt.sql
      = [insertSql, selectByIdSql] := by
  unfold addEmployee afterValidation runInsert insertAndReread
  repeat' split
  all_goals simp

/-- Helper: every 201 response of add_employee executed exactly the insert
followed by the re-read select. -/
theorem addEmployee_201_stmts (pool : Bool) (body : RequestBody)
    (fault : Option Fault) (now : DateTime) (db : Db) :
    (addEmployee pool body fault now db).resp.status = 201 →
    (addEmployee pool body fault now db).stmts.map Stmt.sql
      = [insertSql, selectByIdSql] := by
  cases body with
  | parseFails => intro h; simp [addEmployee] at h
  | nonObject => intro h; simp [addEmployee] at h
  | obj p =>
    cases hv : validatePayload p with
    | some r =>
      intro h
      rw [addEmployee_invalid pool p fault now db r hv] at h
      have h400 := validatePayload_some_status p r hv
      rw [h400] at h
      simp at h
    | none =>
      rw [addEmployee_valid pool p fault now db hv]
      unfold afterValidation runInsert insertAndReread
      repeat' split
      all_goals simp

/-- Helper: whenever get_employee acquired a connection, it executed exactly
the select-by-id statement. -/
theorem getEmployee_acquired_stmts (pool : Bool) (eid : Nat)
    (fault : Option Fault) (db : Db) :
    (getEmployee pool eid fault db).acquired = true →
    (getEmployee pool eid fault db).stmts.map Stmt.sql = [selectByIdSql] := by
  unfold getEmployee
  repeat' split
  all_goals simp

/-- Helper: whenever get_all_employees acquired a connection, it executed
exactly the select-all statement. -/
theorem getAllEmployees_acquired_stmts (pool : Bool) (fault : Option Fault)
    (db : Db) :
    (getAllEmployees pool fault db).acquired = true →
    (getAllEmployees pool fault db).stmts.map Stmt.sql = [selectAllSql] := by
  unfold getAllEmployees
  repeat' split
  all_goals simp

/-- C5 (amended): every statement text a handler executes is one of three
fixed SQL strings, independent of request data, which is bound only through
statement parameters; get-by-id and get-all execute at most one statement
and exactly one whenever a connection is acquired; create executes at most
two, executes the insert (alone or with the re-read) whenever a connection
is acquired, and on every 201 response executes exactly the insert followed
by the re-read select. -/
theorem handlers_statement_texts_fixed (pool : Bool) (body : RequestBody)
    (fault : Option Fault) (now : DateTime) (db : Db) (eid : Nat) :
    ((addEmployee pool body fault now db).stmts.map Stmt.sql = [] ∨
     (addEmployee pool body fault now db).stmts.map Stmt.sql = [insertSql] ∨
     (addEmployee pool body fault now db).stmts.map Stmt.sql
       = [insertSql, selectByIdSql]) ∧
    ((getEmployee pool eid fault db).stmts.map Stmt.sql = [] ∨
     (getEmployee pool eid fault db).stmts.map Stmt.sql = [selectByIdSql]) ∧
    ((getAllEmployees pool fault db).stmts.map Stmt.sql = [] ∨
     (getAllEmployees pool fault db).stmts.map Stmt.sql = [selectAllSql]) ∧
    ((addEmployee pool body fault now db).acquired = true →
      (addEmployee pool body fault now db).stmts.map Stmt.sql = [insertSql] ∨
      (addEmployee pool body fault now db).stmts.map Stmt.sql
        = [insertSql, selectByIdSql]) ∧
    ((addEmployee pool body fault now db).resp.status = 201 →
      (addEmployee pool body fault now db).stmts.map Stmt.sql
        = [insertSql, selectByIdSql]) ∧
    ((getEmployee pool eid fault db).acquired = true →
      (getEmployee pool eid fault db).stmts.map Stmt.sql = [selectByIdSql]) ∧
    ((getAllEmployees pool fault db).acquired = true →
      (getAllEmployees pool fault db).stmts.map Stmt.sql = [selectAllSql]) := by
  refine ⟨?_, ?_, ?_, addEmployee_acquired_stmts pool body fault now db,
    addEmployee_201_stmts pool body fault now db,
    getEmployee_acquired_stmts pool eid fault db,
    getAllEmployees_acquired_stmts pool fault db⟩
  · unfold addEmployee afterValidation runInsert insertAndReread
    repeat' split
    all_goals simp
  · unfold getEmployee
    repeat' split
    all_goals simp
  · unfold getAllEmployees
    repeat' split
    all_goals simp

/-- C5 counterexample: a successful create executes two statements against
the employees table (the insert and the re-read select), not exactly one. -/
theorem create_success_executes_two_statements :
    (addEmployee true (.obj annP) none exNow emptyDb).stmts.length = 2 ∧
    ¬(addEmployee true (.obj annP) none exNow emptyDb).stmts.length = 1 := by
  exact ⟨rfl, by decide⟩

/-- C4 (amended): in every handler run, the finally clause releases the
connection exactly when one was acquired and it is still connected at that
point: released = acquired AND connConnected, on every exit path. -/
theorem handlers_release_iff_still_connected (pool : Bool) (body : RequestBody)
    (fault : Option Fault) (now : DateTime) (db : Db) (eid : Nat) :
    (addEmployee pool body fault now db).released
      = ((addEmployee pool body fault now db).acquired
          && (addEmployee pool body fault now db).connConnected) ∧
    (getEmployee pool eid fault db).released
      = ((getEmployee pool eid fault db).acquired
          && (getEmployee pool eid fault db).connConnected) ∧
    (getAllEmployees pool fault db).released
      = ((getAllEmployees pool fault db).acquired
          && (getAllEmployees pool fault db).connConnected) := by
  refine ⟨?_, ?_, ?_⟩
  · unfold addEmployee afterValidation runInsert insertAndReread
    repeat' split
    all_goals rfl
  · unfold getEmployee
    repeat' split
    all_goals rfl
  · unfold getAllEmployees
    repeat' split
    all_goals rfl

/-- C4 counterexample: a storage error that leaves the connection
disconnected (for example a lost connection, errno 2013) makes the guard
connection.is_connected() of the finally clause false, so the acquired
pooled connection is never closed: an exit path that releases nothing. -/
theorem lost_connection_not_released :
    (addEmployee true (.obj annP) (some lostFault) exNow emptyDb).acquired = true ∧
    (addEmployee true (.obj annP) (some lostFault) exNow emptyDb).released = false :=
  ⟨rfl, rfl⟩

/-- Helper: the success path never answers 400. -/
theorem insertAndReread_status_ne_400 (p : Payload) (now : DateTime) (db : Db) :
    (insertAndReread p now db).resp.status ≠ 400 := by
  unfold insertAndReread
  split <;> simp

/-- C1: a valid create payload (required fields present and non-empty, email
containing '@' and not already stored) makes add_employee insert exactly the
provided fields (absent optional fields NULL) with the next AUTO_INCREMENT
id, re-read that row, and answer 201 with its dictionary; the returned
fields equal the submitted ones and the id is positive and not previously
issued. -/
theorem create_valid_payload_inserts_and_returns_row
    (p : Payload) (fn ln em : String) (now : DateTime) (db : Db)
    (hfn : p.first_name = some fn) (hfn2 : fn ≠ "")
    (hln : p.last_name = some ln) (hln2 : ln ≠ "")
    (hem : p.email = some em) (hem2 : em ≠ "")
    (hat : hasAtSign em = true)
    (hfresh : emailExists db em = false)
    (hids : ∀ r ∈ db.rows, r.id < db.nextId)
    (hpos : 0 < db.nextId) :
    addEmployee true (.obj p) none now db
      = ⟨⟨201, .created "Employee added successfully"
            (rowToDict (mkRow db.nextId p now))⟩,
         insertRow p now db, true, true, true,
         [⟨insertSql, insertParams p⟩, ⟨selectByIdSql, [.vInt db.nextId]⟩]⟩ ∧
    dictGet (rowToDict (mkRow db.nextId p now)) "id" = some (.vInt db.nextId) ∧
    dictGet (rowToDict (mkRow db.nextId p now)) "first_name" = some (.vStr fn) ∧
    dictGet (rowToDict (mkRow db.nextId p now)) "last_name" = some (.vStr ln) ∧
    dictGet (rowToDict (mkRow db.nextId p now)) "email" = some (.vStr em) ∧
    dictGet (rowToDict (mkRow db.nextId p now)) "phone" = some (optStrVal p.phone) ∧
    dictGet (rowToDict (mkRow db.nextId p now)) "department"
        = some (optStrVal p.department) ∧
    dictGet (rowToDict (mkRow db.nextId p now)) "position" = some (optStrVal p.pos) ∧
    dictGet (rowToDict (mkRow db.nextId p now)) "salary" = some (optIntVal p.salary) ∧
    dictGet (rowToDict (mkRow db.nextId p now)) "hire_date"
        = some (optDateVal p.hire_date) ∧
    0 < db.nextId ∧ (∀ r ∈ db.rows, r.id ≠ db.nextId) := by
  have hvalid : validatePayload p = none := by
    simp [validatePayload, missingOrFalsy, strOf, hfn, hln, hem, hfn2, hln2, hem2, hat]
  have hex : emailExists db (strOf p.email) = false := by
    rw [hem]; exact hfresh
  have hfind : (insertRow p now db).rows.find? (fun r => r.id == db.nextId)
      = some (mkRow db.nextId p now) := by
    unfold insertRow
    rw [find?_append_of_forall_false
      (by intro r hr; simpa using Nat.ne_of_lt (hids r hr))]
    simp [List.find?, mkRow]
  refine ⟨?_, rfl, ?_, ?_, ?_,
    (rowToDict_fields (mkRow db.nextId p now)).2.2.2.2.2.1,
    (rowToDict_fields (mkRow db.nextId p now)).2.2.2.2.2.2.1,
    (rowToDict_fields (mkRow db.nextId p now)).2.2.2.2.2.2.2.1,
    (rowToDict_fields (mkRow db.nextId p now)).2.2.2.2.2.2.2.2.1,
    (rowToDict_fields (mkRow db.nextId p now)).2.2.2.2.2.2.2.2.2.1,
    hpos, fun r hr => Nat.ne_of_lt (hids r hr)⟩
  · rw [addEmployee_valid true p none now db hvalid, afterValidation_up,
      runInsert_fresh p now db hex]
    unfold insertAndReread
    rw [hfind]
  · rw [(rowToDict_fields (mkRow db.nextId p now)).2.2.1]
    simp [mkRow, strOf, hfn]
  · rw [(rowToDict_fields (mkRow db.nextId p now)).2.2.2.1]
    simp [mkRow, strOf, hln]
  · rw [(rowToDict_fields (mkRow db.nextId p now)).2.2.2.2.1]
    simp [mkRow, strOf, hem]

/-- C2: a create request with a JSON-object body is answered 400 exactly
when a required field is absent or empty or the email lacks an '@'; in that
case validation fails before any connection is acquired or statement
executed, and the table is unchanged. -/
theorem create_rejects_invalid_payloads (pool : Bool) (p : Payload)
    (fault : Option Fault) (now : DateTime) (db : Db) :
    ((addEmployee pool (.obj p) fault now db).resp.status = 400
        ↔ invalidPayload p = true) ∧
    (invalidPayload p = true →
      (addEmployee pool (.obj p) fault now db).db = db ∧
      (addEmployee pool (.obj p) fault now db).acquired = false ∧
      (addEmployee pool (.obj p) fault now db).stmts = []) := by
  by_cases hv : invalidPayload p = true
  · have hne : ¬validatePayload p = none := by
      rw [validatePayload_none_iff]; simp [hv]
    obtain ⟨r, hr⟩ : ∃ r, validatePayload p = some r := by
      cases hvp : validatePayload p with
      | none => exact absurd hvp hne
      | some r => exact ⟨r, rfl⟩
    have hst := validatePayload_some_status p r hr
    refine ⟨⟨fun _ => hv, fun _ => ?_⟩, fun _ => ?_⟩
    · rw [addEmployee_invalid pool p fault now db r hr]
      exact hst
    · rw [addEmployee_invalid pool p fault now db r hr]
      exact ⟨rfl, rfl, rfl⟩
  · have hvn : validatePayload p = none :=
      (validatePayload_none_iff p).mpr (by simpa using hv)
    refine ⟨⟨fun h400 => ?_, fun hvt => absurd hvt hv⟩, fun hvt => absurd hvt hv⟩
    exfalso
    rw [addEmployee_valid pool p fault now db hvn] at h400
    cases pool
    · rw [afterValidation_down] at h400
      simp at h400
    · rw [afterValidation_up] at h400
      cases fault with
      | some f =>
        rw [runInsert_fault] at h400
        by_cases he : f.errno = 1062
        · rw [if_pos he] at h400
          simp at h400
        · rw [if_neg he] at h400
          simp at h400
      | none =>
        cases hex : emailExists db (strOf p.email) with
        | true =>
          rw [runInsert_dup p now db hex] at h400
          simp at h400
        | false =>
          rw [runInsert_fresh p now db hex] at h400
          exact insertAndReread_status_ne_400 p now db h400

/-- C3: an insert hitting the email UNIQUE constraint (mysql errno 1062)
yields 409 with the fixed conflict message and leaves the table unchanged,
so the previously stored row stays retrievable exactly as before; any other
storage error yields 500 with a fixed generic message; every error body on
this path is one of the two fixed constants, never the storage-layer error
text. -/
theorem create_conflict_and_storage_errors (p : Payload) (now : DateTime)
    (db : Db) (hvalid : validatePayload p = none) :
    (emailExists db (strOf p.email) = true →
      addEmployee true (.obj p) none now db
        = ⟨⟨409, .errMsg "Email already exists"⟩, db, true, true, true,
            [⟨insertSql, insertParams p⟩]⟩ ∧
      ∀ eid, getEmployee true eid none (addEmployee true (.obj p) none now db).db
           = getEmployee true eid none db) ∧
    (∀ f : Fault, ¬f.errno = 1062 →
      addEmployee true (.obj p) (some f) now db
        = ⟨⟨500, .errMsg "Database error occurred"⟩, db, true, f.stillConnected,
            f.stillConnected, [⟨insertSql, insertParams p⟩]⟩) ∧
    (∀ f : Fault,
      (addEmployee true (.obj p) (some f) now db).resp.body
          = .errMsg "Email already exists" ∨
      (addEmployee true (.obj p) (some f) now db).resp.body
          = .errMsg "Database error occurred") := by
  refine ⟨fun hdup => ?_, fun f hf => ?_, fun f => ?_⟩
  · have heq : addEmployee true (.obj p) none now db
        = ⟨⟨409, .errMsg "Email already exists"⟩, db, true, true, true,
            [⟨insertSql, insertParams p⟩]⟩ := by
      rw [addEmployee_valid true p none now db hvalid, afterValidation_up,
        runInsert_dup p now db hdup]
    exact ⟨heq, fun eid => by rw [heq]⟩
  · rw [addEmployee_valid true p (some f) now db hvalid, afterValidation_up,
      runInsert_fault, if_neg hf]
  · rw [addEmployee_valid true p (some f) now db hvalid, afterValidation_up,
      runInsert_fault]
    by_cases he : f.errno = 1062
    · left
      rw [if_pos he]
    · right
      rw [if_neg he]

/-- C8: get-by-id answers 404 with the not-found message exactly when no
stored row has the requested id, and otherwise 200 with the dictionary of
the stored row; under id uniqueness the row found is the unique (hence last)
row written for that id.  The table is unchanged either way. -/
theorem get_by_id_found_or_404 (db : Db) (eid : Nat) :
    (db.rows.find? (fun r => r.id == eid) = none →
      getEmployee true eid none db
        = ⟨⟨404, .errMsg "Employee not found"⟩, db, true, true, true,
            [⟨selectByIdSql, [.vInt eid]⟩]⟩) ∧
    (∀ r, db.rows.find? (fun r => r.id == eid) = some r →
      getEmployee true eid none db
        = ⟨⟨200, .single (rowToDict r)⟩, db, true, true, true,
            [⟨selectByIdSql, [.vInt eid]⟩]⟩) ∧
    (db.rows.find? (fun r => r.id == eid) = none ↔ ∀ r ∈ db.rows, ¬r.id = eid) ∧
    ((∀ a ∈ db.rows, ∀ b ∈ db.rows, a.id = b.id → a = b) →
      ∀ r ∈ db.rows, r.id = eid →
        getEmployee true eid none db
          = ⟨⟨200, .single (rowToDict r)⟩, db, true, true, true,
              [⟨selectByIdSql, [.vInt eid]⟩]⟩) := by
  have hok : ∀ r, db.rows.find? (fun r => r.id == eid) = some r →
      getEmployee true eid none db
        = ⟨⟨200, .single (rowToDict r)⟩, db, true, true, true,
            [⟨selectByIdSql, [.vInt eid]⟩]⟩ := by
    intro r h
    rw [getEmployee_eq, h]
  refine ⟨fun h => ?_, hok, ?_, fun huniq r hr hid => ?_⟩
  · rw [getEmployee_eq, h]
  · rw [List.find?_eq_none]
    constructor
    · intro h r hr
      simpa using h r hr
    · intro h r hr
      simpa using h r hr
  · cases hfind : db.rows.find? (fun x => x.id == eid) with
    | none =>
      exfalso
      have hfalse := List.find?_eq_none.mp hfind r hr
      simp [hid] at hfalse
    | some r2 =>
      have hmem := List.mem_of_find?_eq_some hfind
      have hid2 : r2.id = eid := by simpa using List.find?_some hfind
      have : r2 = r := huniq r2 hmem r hr (by rw [hid2, hid])
      rw [← this]
      exact hok r2 hfind

/-- C9 (amended): when pool construction failed at process start, every
connection acquisition fails with the pool-unavailable error, permanently,
and every data-bearing request that reaches acquisition (get-by-id, get-all,
and any create whose body passes validation) is answered 500 with the
generic message and no table change; a create whose body fails validation is
still answered 400 before the pool is touched. -/
theorem pool_unavailable_requests_fail (eid : Nat) (fault : Option Fault)
    (db : Db) (p : Payload) (now : DateTime) :
    getDbConnection false = .error "Database connection pool not available" ∧
    getEmployee false eid fault db
      = ⟨⟨500, .errMsg "Internal server error"⟩, db, false, true, false, []⟩ ∧
    getAllEmployees false fault db
      = ⟨⟨500, .errMsg "Internal server error"⟩, db, false, true, false, []⟩ ∧
    (validatePayload p = none →
      addEmployee false (.obj p) fault now db
        = ⟨⟨500, .errMsg "Internal server error"⟩, db, false, true, false, []⟩) := by
  refine ⟨rfl, getEmployee_down eid fault db, getAllEmployees_down fault db,
    fun hvalid => ?_⟩
  rw [addEmployee_valid false p fault now db hvalid, afterValidation_down]

/-- C9 counterexample: with the pool unavailable, a create request whose
body fails validation is answered 400, not a 500-class pool-unavailable
error, so not every data-bearing request fails with the pool error. -/
theorem pool_down_invalid_create_still_400 :
    (addEmployee false (.obj badP) none exNow emptyDb).resp.status = 400 ∧
    ¬(addEmployee false (.obj badP) none exNow emptyDb).resp.status = 500 := by
  exact ⟨rfl, by decide⟩

/-- Witness for C1: the spec scenario create on the fresh table. -/
theorem create_valid_payload_witness :
    (addEmployee true (.obj annP) none exNow emptyDb).resp.status = 201 ∧
    dictGet (rowToDict (mkRow emptyDb.nextId annP exNow)) "first_name"
      = some (.vStr "Ann") := by
  have h := create_valid_payload_inserts_and_returns_row annP "Ann" "Lee"
    "ann@x.com" exNow emptyDb rfl (by decide) rfl (by decide) rfl (by decide)
    rfl rfl (by intro r hr; simp [emptyDb] at hr) (by decide)
  exact ⟨by rw [h.1], h.2.2.1⟩

/-- Witness for C2: the create payload missing first_name is rejected with
400, the table unchanged, no connection acquired. -/
theorem create_rejects_invalid_witness :
    invalidPayload badP = true ∧
    (addEmployee true (.obj badP) none exNow emptyDb).resp.status = 400 ∧
    (addEmployee true (.obj badP) none exNow emptyDb).db = emptyDb ∧
    (addEmployee true (.obj badP) none exNow emptyDb).acquired = false := by
  have h := create_rejects_invalid_payloads true badP none exNow emptyDb
  have hb : invalidPayload badP = true := rfl
  exact ⟨hb, h.1.mpr hb, (h.2 hb).1, (h.2 hb).2.1⟩

/-- Witness for C3: re-creating Ann conflicts with 409; an injected generic
storage error yields the fixed 500 message. -/
theorem create_conflict_witness :
    (addEmployee true (.obj annP) none exNow annDb).resp
        = ⟨409, .errMsg "Email already exists"⟩ ∧
    (addEmployee true (.obj annP) (some otherFault) exNow annDb).resp
        = ⟨500, .errMsg "Database error occurred"⟩ := by
  have h := create_conflict_and_storage_errors annP exNow annDb rfl
  exact ⟨by rw [(h.1 rfl).1], by rw [h.2.1 otherFault (by decide)]⟩

/-- Witness for C8: Ann's id is found with 200, a missing id yields 404. -/
theorem get_by_id_witness :
    (getEmployee true 1 none annDb).resp = ⟨200, .single (rowToDict annRow)⟩ ∧
    (getEmployee true 2 none annDb).resp = ⟨404, .errMsg "Employee not found"⟩ := by
  have h1 := get_by_id_found_or_404 annDb 1
  have h2 := get_by_id_found_or_404 annDb 2
  exact ⟨by rw [h1.2.1 annRow rfl], by rw [h2.1 rfl]⟩

/-- Witness for C5: the scenario create succeeds with the insert followed by
the re-read, and the two get handlers each execute their single statement
once a connection is acquired. -/
theorem handlers_statement_texts_witness :
    (addEmployee true (.obj annP) none exNow emptyDb).stmts.map Stmt.sql
      = [insertSql, selectByIdSql] ∧
    (getEmployee true 1 none annDb).stmts.map Stmt.sql = [selectByIdSql] ∧
    (getAllEmployees true none annDb).stmts.map Stmt.sql = [selectAllSql] := by
  have h := handlers_statement_texts_fixed true (.obj annP) none exNow emptyDb 1
  have h2 := handlers_statement_texts_fixed true (.obj annP) none exNow annDb 1
  exact ⟨h.2.2.2.2.1 rfl, h2.2.2.2.2.2.1 rfl, h2.2.2.2.2.2.2 rfl⟩

/-- Witness for C9: with the pool down, get-by-id and a valid create are
both answered 500 with the generic message. -/
theorem pool_unavailable_witness :
    (getEmployee false 1 none emptyDb).resp.status = 500 ∧
    (addEmployee false (.obj annP) none exNow emptyDb).resp.status = 500 := by
  have h := pool_unavailable_requests_fail 1 none emptyDb annP exNow
  exact ⟨by rw [h.2.1], by rw [h.2.2.2 rfl]⟩

end EmployeeApp
